import Mathlib

/-!
Verification of the GeckoGame runtime core.

This file gives a shallow embedding, in Lean, of the event bus, the
entity manager, the physics system, the rendering system and the game
coordinator of the GeckoGame repository, and proves properties of the
embedded definitions.  Every definition is translated from the
TypeScript source; doc comments cite the file each definition comes
from.
-/

namespace GeckoGame

/-- Event names of the game event registry
(src/src/gameplay/core/events/Events.ts, interface EventRegistry). -/
inductive GEvent where
  | dummy_mouse_event
  | change_game_mode_command
  | player_move_command
  | player_stop_command
  | start_game_command
  | game_win_event
  | scan_orb_collision
  | scan_orb_position_changed
  | recreate_scan_orb_command
  | entity_dispose_physics_request
  | entity_dispose_rendering_request
  | entity_disposed
  | physics_engine_initialized
  | entity_added_to_manager
  | game_mode_updated
  deriving DecidableEq

/-- A callback is identified by its object reference in JavaScript; we model
references by natural numbers. -/
abbrev CbId := Nat

/-- Event payloads, abstracted to an opaque value the bus merely passes along
(EventBus never inspects the payload). -/
abbrev Payload := Nat

/-- The body of a callback, as the bus-relevant actions it may perform:
registering a callback, unregistering one, emitting an event, or throwing.
This mirrors what callbacks in the repository do to the bus. -/
inductive Act where
  | onAct (e : GEvent) (c : CbId)
  | offAct (e : GEvent) (c : CbId)
  | emitAct (e : GEvent) (p : Payload)
  | throwAct
  deriving DecidableEq

/-- Assignment of a (fixed) body to every callback reference. -/
abbrev Env := CbId → List Act

/-- State of one EventBus (src/src/gameplay/core/events/EventBus.ts):
`listeners` models the `Map<event, Set<callback>>`, where each JS Set is its
internal entry list in insertion order, a deleted entry being replaced by an
empty slot (`none`) exactly as in the ECMAScript specification of Set; a
missing map key is the empty list.  `log` records every callback invocation
performed by `emit`, in order, with the payload it was passed. -/
structure BusState where
  listeners : GEvent → List (Option CbId)
  log : List (CbId × Payload)

/-- JS `Set.prototype.has` on the entry list. -/
def setHas (l : List (Option CbId)) (c : CbId) : Prop :=
  Option.some c ∈ l

instance (l : List (Option CbId)) (c : CbId) : Decidable (setHas l c) := by
  unfold setHas; infer_instance

/-- JS `Set.prototype.add`: appends a new entry unless the value is present. -/
def setAdd (l : List (Option CbId)) (c : CbId) : List (Option CbId) :=
  if setHas l c then l else l ++ [Option.some c]

/-- JS `Set.prototype.delete`: replaces the entry holding the value by an
empty slot (the slot keeps its position, as in the ECMAScript spec). -/
def setDelete (l : List (Option CbId)) (c : CbId) : List (Option CbId) :=
  l.map (fun x => if x = Option.some c then none else x)

/-- EventBus.on: get-or-create the Set for the event, then `add`. -/
def busOn (e : GEvent) (c : CbId) (s : BusState) : BusState :=
  { s with listeners := fun x => if x = e then setAdd (s.listeners x) c else s.listeners x }

/-- EventBus.off: `delete` the callback from the Set for the event, if any. -/
def busOff (e : GEvent) (c : CbId) (s : BusState) : BusState :=
  { s with listeners := fun x => if x = e then setDelete (s.listeners x) c else s.listeners x }

mutual

/-- Run the body of a callback.  Bus mutations apply immediately; an
`emitAct` re-enters `emitLoop`; a throw (or an exception escaping a nested
emit) aborts the rest of the body and propagates (`true` in the result).
`none` means the step fuel ran out. -/
def runActs (env : Env) : Nat → List Act → BusState → Option (BusState × Bool)
  | _, [], s => some (s, false)
  | 0, _ :: _, _ => none
  | fuel + 1, Act.onAct e c :: rest, s => runActs env fuel rest (busOn e c s)
  | fuel + 1, Act.offAct e c :: rest, s => runActs env fuel rest (busOff e c s)
  | _ + 1, Act.throwAct :: _, s => some (s, true)
  | fuel + 1, Act.emitAct e p :: rest, s =>
    match emitLoop env fuel e p 0 s with
    | none => none
    | some (s1, true) => some (s1, true)
    | some (s1, false) => runActs env fuel rest s1

/-- The iteration of EventBus.emit: `callbacks.forEach((cb) => cb(payload))`
over the live Set, following the ECMAScript forEach algorithm: walk the entry
list by index, re-reading the (possibly mutated) list each step, skipping
empty slots, invoking the callback held by each filled slot.  Exceptions are
not caught (there is no try block in emit) and propagate. -/
def emitLoop (env : Env) : Nat → GEvent → Payload → Nat → BusState → Option (BusState × Bool)
  | 0, _, _, _, _ => none
  | fuel + 1, e, p, i, s =>
    if h : i < (s.listeners e).length then
      match (s.listeners e).get ⟨i, h⟩ with
      | none => emitLoop env fuel e p (i + 1) s
      | some c =>
        match runActs env fuel (env c) { s with log := s.log ++ [(c, p)] } with
        | none => none
        | some (s1, true) => some (s1, true)
        | some (s1, false) => emitLoop env fuel e p (i + 1) s1
    else some (s, false)

end

/-- EventBus.emit: look up the listener Set for the event and invoke every
callback in it via `forEach` (see `emitLoop`).  In the result, `true` means
an exception escaped to the caller of emit. -/
def emit (env : Env) (fuel : Nat) (e : GEvent) (p : Payload) (s : BusState) :
    Option (BusState × Bool) :=
  emitLoop env fuel e p 0 s

/-- The body of the wrapper EventBus.once registers: it first unregisters
itself (`this.off(event, wrapper)`) and only then runs the wrapped
callback body (src/src/gameplay/core/events/EventBus.ts lines 69-88). -/
def onceWrapper (e : GEvent) (w : CbId) (body : List Act) : List Act :=
  Act.offAct e w :: body

/-- A sequence of separate top-level emit calls.  An exception escaping one
call reaches the host (which does not undo the deliveries already made);
subsequent calls still run. -/
def emitSeq (env : Env) (fuel : Nat) : List (GEvent × Payload) → BusState → Option BusState
  | [], s => some s
  | (e, p) :: rest, s =>
    match emit env fuel e p s with
    | none => none
    | some (s1, _) => emitSeq env fuel rest s1

/-- Number of invocations of callback `w` recorded in a log. -/
def wCount (w : CbId) (log : List (CbId × Payload)) : Nat :=
  (log.filter (fun q => decide (q.1 = w))).length

/-- Callback `w` is registered nowhere on the bus. -/
def wFree (w : CbId) (s : BusState) : Prop :=
  ∀ e, Option.some w ∉ s.listeners e

/-- No callback body in the environment ever registers `w`.  This holds for
the wrapper created by `once`: it is a closure local to the once call, so no
other callback holds a reference with which to re-register it. -/
def wNotAdded (env : Env) (w : CbId) : Prop :=
  ∀ c e, Act.onAct e w ∉ env c

/-- Accumulated invariant of `once`-registration for the wrapper `w` of event
`E`: either the wrapper has never been invoked and is registered at most once,
only for `E`; or it was invoked exactly once and is registered nowhere. -/
def onceInv (w : CbId) (E : GEvent) (s : BusState) : Prop :=
  (wCount w s.log = 0 ∧ (∀ e, e ≠ E → Option.some w ∉ s.listeners e) ∧
      (s.listeners E).count (Option.some w) ≤ 1)
  ∨ (wCount w s.log = 1 ∧ wFree w s)

/-! ### Entities and the entity manager -/

/-- Entity identities (src/src/gameplay/core/ec-s/Entity.ts plus the
`scan_orb` identity used by src/src/gameplay/entities/ScanOrb.ts). -/
inductive EntityId where
  | player
  | starship
  | landing_plane
  | loading_screen
  | scan_orb
  deriving DecidableEq

/-- Game modes (src/src/gameplay/GameManager.ts, type GameMode). -/
inductive GameMode where
  | loading
  | waiting
  | normal
  | gecko
  deriving DecidableEq

/-- A three-component vector with exact rational coordinates, standing for
the THREE.Vector3 / RAPIER.Vector3 triples of the source. -/
structure Vec3 where
  x : ℚ
  y : ℚ
  z : ℚ
  deriving DecidableEq

/-- A concrete entity as the systems see it: its fixed identity, which
components it carries (component presence is what `hasComponent` queries),
whether it implements a `dispose` method (the `hasDisposeMethod` type guard),
its current position property, and a tag distinguishing instances. -/
structure GEntity where
  id : EntityId
  hasPhysics : Bool
  hasRendering : Bool
  hasDispose : Bool
  pos : Vec3
  tag : Nat
  deriving DecidableEq

/-- Bus events relevant to the entity manager and game coordinator, with
their payloads. -/
inductive BusEvent where
  | entity_added_to_manager (en : GEntity)
  | entity_disposed (id : EntityId)
  | entity_dispose_physics_request (id : EntityId)
  | entity_dispose_rendering_request (id : EntityId)
  | scan_orb_collision
  | scan_orb_position_changed
  | game_win_event
  | game_mode_updated (prev : GameMode) (curr : GameMode)
  deriving DecidableEq

/-- State of the EntityManager (src/src/gameplay/core/ec-s/EntityManager.ts):
the `Map<EntityId, Entity>` as an association list in insertion order, plus
the events it has emitted on the bus and the console warnings it produced. -/
structure EMState where
  entities : List (EntityId × GEntity)
  emitted : List BusEvent
  warnings : List String
  deriving DecidableEq

/-- JS `Map.prototype.has` on the association list. -/
def mapHas (m : List (EntityId × GEntity)) (i : EntityId) : Bool :=
  m.any (fun q => decide (q.1 = i))

/-- JS `Map.prototype.set`: overwrite in place if the key exists (keeping its
insertion position), otherwise append. -/
def mapSet (m : List (EntityId × GEntity)) (i : EntityId) (en : GEntity) :
    List (EntityId × GEntity) :=
  match m with
  | [] => [(i, en)]
  | (k, v) :: rest => if k = i then (k, en) :: rest else (k, v) :: mapSet rest i en

/-- JS `Map.prototype.get`, `undefined` modelled as `none`. -/
def mapGet (m : List (EntityId × GEntity)) (i : EntityId) : Option GEntity :=
  (m.find? (fun q => decide (q.1 = i))).map (fun q => q.2)

/-- JS `Map.prototype.delete` (Maps, unlike Sets, drop the deleted entry). -/
def mapDelete (m : List (EntityId × GEntity)) (i : EntityId) :
    List (EntityId × GEntity) :=
  m.filter (fun q => decide (¬ q.1 = i))

/-- Number of entries with key `i` in the collection. -/
def keyCount (i : EntityId) (m : List (EntityId × GEntity)) : Nat :=
  (m.filter (fun q => decide (q.1 = i))).length

/-- Events emitted by a concrete entity's `dispose` method: it requests
disposal of its physics and rendering resources (ScanOrb.dispose,
src/src/gameplay/entities/ScanOrb.ts lines 208-212). -/
def entityDisposeEmits (i : EntityId) : List BusEvent :=
  [BusEvent.entity_dispose_physics_request i,
   BusEvent.entity_dispose_rendering_request i]

/-- EntityManager.addEntity (lines 24-32): warn when the identity already
exists, store the entity under its identity (replacing any previous entry),
then emit `entity_added_to_manager` carrying the entity. -/
def addEntity (en : GEntity) (s : EMState) : EMState :=
  { entities := mapSet s.entities en.id en,
    emitted := s.emitted ++ [BusEvent.entity_added_to_manager en],
    warnings :=
      if mapHas s.entities en.id then
        s.warnings ++ ["Entity with ID already exists. Replacing."]
      else s.warnings }

/-- EntityManager.getEntity (lines 34-36). -/
def getEntity (i : EntityId) (s : EMState) : Option GEntity :=
  mapGet s.entities i

/-- EntityManager.disposeEntity (lines 66-73): call the entity's dispose
method when it has one (warn otherwise), then delete it from the map. -/
def disposeEntity (en : GEntity) (s : EMState) : EMState :=
  let s1 :=
    if en.hasDispose then { s with emitted := s.emitted ++ entityDisposeEmits en.id }
    else { s with warnings := s.warnings ++ ["Entity does not have a dispose method."] }
  { s1 with entities := mapDelete s1.entities en.id }

/-- EntityManager.removeEntity (lines 38-49): when the identity is present,
dispose the entity, emit `entity_disposed` and return true; otherwise warn
and return false. -/
def removeEntity (i : EntityId) (s : EMState) : EMState × Bool :=
  match mapGet s.entities i with
  | some en =>
    let s1 := disposeEntity en s
    ({ s1 with emitted := s1.emitted ++ [BusEvent.entity_disposed i] }, true)
  | none => ({ s with warnings := s.warnings ++ ["Entity not found for removal"] }, false)

/-! ### Physics system -/

/-- Squared Euclidean distance between two rigid-body translations, written
with explicit products (the source squares with `** 2`).  The source compares
`Math.sqrt(d2) < 3.0`; we embed the equivalent comparison `d2 < 9` (exact for
nonnegative radicands). -/
def distSq (a b : Vec3) : ℚ :=
  (a.x - b.x) * (a.x - b.x) + (a.y - b.y) * (a.y - b.y) + (a.z - b.z) * (a.z - b.z)

/-- The scan-orb trigger state of the PhysicsSystem
(src/unnamed/part_007: `scanOrbCollisionActive`, `scanOrbCollisionCooldown`).
`cooldownUntil` is the millisecond timestamp before which the check returns
immediately. -/
structure CollisionState where
  active : Bool
  cooldownUntil : Nat
  deriving DecidableEq

/-- The 1-second cooldown constant (COLLISION_COOLDOWN_MS). -/
def COLLISION_COOLDOWN_MS : Nat := 1000

/-- PhysicsSystem.checkScanOrbCollisions (src/unnamed/part_007 lines
148-193).  `now` is `Date.now()`; `bodies` gives each entity's first
rigid-body translation, `none` when the entity is absent from the manager or
has no rigid bodies.  Returns the new trigger state and whether a
`scan_orb_collision` event was emitted. -/
def checkScanOrbCollisions (now : Nat) (bodies : EntityId → Option Vec3)
    (cs : CollisionState) : CollisionState × Bool :=
  if now < cs.cooldownUntil then (cs, false)
  else
    match bodies EntityId.scan_orb, bodies EntityId.player with
    | some scanOrbPos, some playerPos =>
      if distSq scanOrbPos playerPos < 9 ∧ cs.active = false then
        ({ active := true, cooldownUntil := now + COLLISION_COOLDOWN_MS }, true)
      else if ¬ distSq scanOrbPos playerPos < 9 ∧ cs.active = true then
        ({ cs with active := false }, false)
      else (cs, false)
    | _, _ => (cs, false)

/-- Body translations for a frame in which only the scan orb and the player
are tracked. -/
def bodiesAt (orb pl : Vec3) : EntityId → Option Vec3 :=
  fun i =>
    if i = EntityId.scan_orb then some orb
    else if i = EntityId.player then some pl
    else none

/-- Run the per-frame trigger check over a list of frames `(now, orb
position, player position)`, returning the final trigger state and the total
number of `scan_orb_collision` events emitted. -/
def runChecks : List (Nat × Vec3 × Vec3) → CollisionState → CollisionState × Nat
  | [], cs => (cs, 0)
  | (now, orb, pl) :: rest, cs =>
    let r := checkScanOrbCollisions now (bodiesAt orb pl) cs
    let rr := runChecks rest r.1
    (rr.1, (if r.2 then 1 else 0) + rr.2)

/-- State of the PhysicsSystem (src/unnamed/part_007): the initialization
flags, a step counter for the Rapier world, the lazily rebuilt cache of
physics-bearing entity identities (`none` = dirty), the log of per-entity
`updatePhysics` invocations, the scan-orb trigger state, and the events the
system emitted. -/
structure PhysSystemState where
  isInitialized : Bool
  hasWorld : Bool
  stepCount : Nat
  cachedEntities : Option (List EntityId)
  updateLog : List EntityId
  collision : CollisionState
  emitted : List BusEvent
  deriving DecidableEq

/-- EntityManager.getEntitiesHavingComponent for the physics component:
the identities of all entities holding a PhysicsComponent, in insertion
order. -/
def physicsEntityIds (mgr : EMState) : List EntityId :=
  (mgr.entities.filter (fun q => q.2.hasPhysics)).map (fun q => q.1)

/-- PhysicsSystem.update (src/unnamed/part_007 lines 62-72): return
immediately unless initialized with a live world; otherwise step the world,
repopulate the cache if dirty, invoke `updatePhysics` on every cached
entity, then run the scan-orb collision check. -/
def PhysicsSystem.update (_dt : ℚ) (now : Nat) (bodies : EntityId → Option Vec3)
    (mgr : EMState) (s : PhysSystemState) : PhysSystemState :=
  if !s.isInitialized || !s.hasWorld then s
  else
    let cache := s.cachedEntities.getD (physicsEntityIds mgr)
    let s2 := { s with stepCount := s.stepCount + 1,
                       cachedEntities := some cache,
                       updateLog := s.updateLog ++ cache }
    let r := checkScanOrbCollisions now bodies s2.collision
    { s2 with collision := r.1,
              emitted := if r.2 then s2.emitted ++ [BusEvent.scan_orb_collision] else s2.emitted }

/-- PhysicsSystem.dispose (src/unnamed/part_007 lines 74-96), restricted to
its effect on the system state: a no-op when never initialized, otherwise
the world is freed, the system marked uninitialized and the cache cleared. -/
def PhysicsSystem.dispose (s : PhysSystemState) : PhysSystemState :=
  if !s.isInitialized then s
  else { s with isInitialized := false, hasWorld := false, cachedEntities := none }

/-! ### Rendering system -/

/-- State of the RenderingSystem
(src/src/gameplay/core/rendering/RenderingSystem.ts, second class in the
file): the lazily rebuilt cache of renderable entity identities (`none` =
dirty), the log of successful per-entity `updateRendering` invocations, and
the number of `renderer.render` draw calls issued. -/
structure RenderState where
  cachedEntities : Option (List EntityId)
  renderedLog : List EntityId
  drawCalls : Nat
  deriving DecidableEq

/-- The identities of all entities holding a RenderingComponent. -/
def renderableEntityIds (mgr : EMState) : List EntityId :=
  (mgr.entities.filter (fun q => q.2.hasRendering)).map (fun q => q.1)

/-- A JavaScript value a loop variable can hold: a string, or an entity. -/
inductive JsVal where
  | str (s : String)
  | ent (i : EntityId)

/-- The values the loop variable of a JavaScript `for (const k in arr)` loop
takes when `arr` is an array: the array index strings "0", "1", ..., not the
array elements. -/
def forInKeys (l : List EntityId) : List JsVal :=
  (List.range l.length).map (fun i => JsVal.str (toString i))

/-- Calling `.updateRendering(dt)` on a JavaScript value: on an entity it
runs the render-update capability; on a string it throws a TypeError,
because strings have no such method. -/
def jsCallUpdateRendering (v : JsVal) (s : RenderState) : Except String RenderState :=
  match v with
  | JsVal.ent i => Except.ok { s with renderedLog := s.renderedLog ++ [i] }
  | JsVal.str k => Except.error ("TypeError: " ++ k ++ ".updateRendering is not a function")

/-- Run a loop body over the loop-variable values; an exception aborts the
loop and propagates. -/
def runForIn : List JsVal → RenderState → Except String RenderState
  | [], s => Except.ok s
  | v :: rest, s =>
    match jsCallUpdateRendering v s with
    | Except.error msg => Except.error msg
    | Except.ok s1 => runForIn rest s1

/-- RenderingSystem.update (src/src/gameplay/core/rendering/RenderingSystem.ts
lines 187-192): `ensureValidCache()`, then
`for (const entity in this.cachedEntities) entity.updateRendering(deltaTime)`
-- a `for..in` loop over the cached array, whose loop variable ranges over
the index strings of the array.  The body contains no `renderer.render`
call. -/
def RenderingSystem.update (mgr : EMState) (s : RenderState) : Except String RenderState :=
  let cache := s.cachedEntities.getD (renderableEntityIds mgr)
  runForIn (forInKeys cache) { s with cachedEntities := some cache }

/-! ### Game coordinator -/

/-- State of the GameManager (src/src/gameplay/GameManager.ts): the
authoritative game mode, the ordered scan-orb target positions with the
current index, and the entity-manager state (whose `emitted` field is the
shared bus log). -/
structure GMState where
  gameMode : GameMode
  scanOrbPositions : List Vec3
  scanOrbIndex : Nat
  em : EMState
  deriving DecidableEq

/-- The initial scan-orb target positions (GameManager lines 38-41). -/
def scanOrbPositionsInit : List Vec3 :=
  [{ x := 0, y := 3, z := -5 }, { x := 0, y := -40, z := -72 }]

/-- The `change_game_mode_command` listener registered by
GameManager.initEventListeners (lines 85-97): record the previous mode,
overwrite the mode with the commanded one, and emit `game_mode_updated`
carrying (prev, curr) before returning.  There is no check of the current
mode and no rejection path. -/
def handleChangeGameModeCommand (m2 : GameMode) (s : GMState) : GMState :=
  let prev := s.gameMode
  { s with gameMode := m2,
           em := { s.em with
                   emitted := s.em.emitted ++ [BusEvent.game_mode_updated prev m2] } }

/-- GameManager.handleScanOrbCollision (lines 124-148): increment the index;
if it reaches the number of target positions, remove the scan orb from the
entity manager and emit `game_win_event`; otherwise copy the next target
position into the orb entity and emit `scan_orb_position_changed`.  In the
relocation branch the handler dereferences the looked-up orb
(`scanOrb.position.copy`), a TypeError when the orb is absent. -/
def handleScanOrbCollision (s : GMState) : Except String GMState :=
  let idx := s.scanOrbIndex + 1
  let orb? := mapGet s.em.entities EntityId.scan_orb
  if idx ≥ s.scanOrbPositions.length then
    let r := removeEntity EntityId.scan_orb s.em
    Except.ok { s with scanOrbIndex := idx,
                       em := { r.1 with emitted := r.1.emitted ++ [BusEvent.game_win_event] } }
  else
    match orb? with
    | none => Except.error "TypeError: cannot read position of undefined"
    | some orb =>
      let nextPosition := (s.scanOrbPositions.get? idx).getD { x := 0, y := 0, z := 0 }
      Except.ok { s with scanOrbIndex := idx,
                         em := { s.em with
                                 entities := mapSet s.em.entities EntityId.scan_orb
                                   { orb with pos := nextPosition },
                                 emitted := s.em.emitted ++ [BusEvent.scan_orb_position_changed] } }

/-- Whole-session state for the frame scheduler: whether a
requestAnimationFrame callback for GameManager.update is queued with the
host, whether `dispose()` has been called (a ghost observation: the source
keeps no such flag and no code path reads it), and the subsystem states. -/
structure SessionState where
  rafQueued : Bool
  disposeCalled : Bool
  phys : PhysSystemState
  render : RenderState

/-- GameManager.update (lines 183-189), the frame callback: its first
statement is `requestAnimationFrame(() => this.update())`, queueing the next
frame unconditionally -- it consults no teardown flag; then it updates
physics and rendering in that order.  An exception escaping
`rendering.update` (see `RenderingSystem.update`) leaves the already-queued
next frame in place. -/
def GameManager.updateFrame (dt : ℚ) (now : Nat) (bodies : EntityId → Option Vec3)
    (mgr : EMState) (s : SessionState) : SessionState :=
  let s1 := { s with rafQueued := true }
  let s2 := { s1 with phys := PhysicsSystem.update dt now bodies mgr s1.phys }
  match RenderingSystem.update mgr s2.render with
  | Except.ok r => { s2 with render := r }
  | Except.error _ => s2

/-- GameManager.dispose (lines 70-82): tears down the UI, controller,
rendering, physics, entity manager and event bus.  It neither cancels the
queued animation frame nor sets any flag that `update` reads. -/
def GameManager.dispose (s : SessionState) : SessionState :=
  { s with disposeCalled := true, phys := PhysicsSystem.dispose s.phys }

/-- The host fires the queued animation-frame callback: the callback is
dequeued and GameManager.update runs. -/
def fireFrame (dt : ℚ) (now : Nat) (bodies : EntityId → Option Vec3)
    (mgr : EMState) (s : SessionState) : SessionState :=
  GameManager.updateFrame dt now bodies mgr { s with rafQueued := false }

/-! ### Concrete instances used by counterexamples and witnesses -/

/-- A bus with no listeners and an empty log. -/
def busEmpty : BusState := { listeners := fun _ => [], log := [] }

/-- Callback 1 registers callback 2 for the same event from within its own
invocation; callback 2 is inert. -/
def envC1add : Env :=
  fun c => if c = 1 then [Act.onAct GEvent.scan_orb_collision 2] else []

/-- Only callback 1 registered for `scan_orb_collision`. -/
def sC1add : BusState :=
  { listeners := fun x => if x = GEvent.scan_orb_collision then [Option.some 1] else [],
    log := [] }

/-- Callback 1 unregisters callback 2 (which has not yet run) from within its
own invocation. -/
def envC1rem : Env :=
  fun c => if c = 1 then [Act.offAct GEvent.scan_orb_collision 2] else []

/-- Callbacks 1 and 2 registered for `scan_orb_collision`, in that order. -/
def sC1rem : BusState :=
  { listeners := fun x =>
      if x = GEvent.scan_orb_collision then [Option.some 1, Option.some 2] else [],
    log := [] }

/-- Callback 1 throws; every other callback is inert. -/
def envC2 : Env := fun c => if c = 1 then [Act.throwAct] else []

/-- Callbacks 1 and 2 registered for `scan_orb_collision`, in that order. -/
def sC2 : BusState :=
  { listeners := fun x =>
      if x = GEvent.scan_orb_collision then [Option.some 1, Option.some 2] else [],
    log := [] }

/-- Callbacks 0, 1 and 2 registered for `scan_orb_collision`, in that order
(0 and 2 inert under `envC2`, 1 throws). -/
def sC2w : BusState :=
  { listeners := fun x =>
      if x = GEvent.scan_orb_collision then [Option.some 0, Option.some 1, Option.some 2]
      else [],
    log := [] }

/-- Callback 0 is a once-wrapper for `game_win_event` whose wrapped body
re-emits `game_win_event` from within itself. -/
def envC7 : Env :=
  fun c =>
    if c = 0 then onceWrapper GEvent.game_win_event 0 [Act.emitAct GEvent.game_win_event 5]
    else []

/-- The bus state reached from `once`-registering callback 0 and then
emitting `game_win_event` twice at top level. -/
def rC7 : BusState :=
  (emitSeq envC7 8 [(GEvent.game_win_event, 3), (GEvent.game_win_event, 4)]
    (busOn GEvent.game_win_event 0 busEmpty)).getD busEmpty

/-- The scan orb at the origin. -/
def vOrb : Vec3 := { x := 0, y := 0, z := 0 }

/-- A player position at distance 2.9 from the origin (below the 3.0
threshold). -/
def vNear : Vec3 := { x := 29/10, y := 0, z := 0 }

/-- A player position at distance 4 from the origin (above the 3.0
threshold). -/
def vFar : Vec3 := { x := 4, y := 0, z := 0 }

/-- An entity manager with no entities. -/
def emptyMgr : EMState := { entities := [], emitted := [], warnings := [] }

/-- A physics system that has not reached the initialized state. -/
def physUninit : PhysSystemState :=
  { isInitialized := false, hasWorld := false, stepCount := 0, cachedEntities := none,
    updateLog := [], collision := { active := false, cooldownUntil := 0 }, emitted := [] }

/-- A player entity carrying both components. -/
def playerEnt : GEntity :=
  { id := EntityId.player, hasPhysics := true, hasRendering := true, hasDispose := true,
    pos := { x := 0, y := 0, z := 0 }, tag := 0 }

/-- An entity manager holding only the player. -/
def mgrC3 : EMState :=
  { entities := [(EntityId.player, playerEnt)], emitted := [], warnings := [] }

/-- A fresh rendering-system state (dirty cache, nothing rendered, no draw
calls). -/
def renderInit : RenderState := { cachedEntities := none, renderedLog := [], drawCalls := 0 }

/-- A scan-orb entity at the first checkpoint. -/
def orbC9 : GEntity :=
  { id := EntityId.scan_orb, hasPhysics := true, hasRendering := true, hasDispose := true,
    pos := { x := 0, y := 3, z := -5 }, tag := 1 }

/-- Two scan-orb entities with the same identity but distinct tags. -/
def orbDup1 : GEntity := { orbC9 with tag := 11 }

/-- See `orbDup1`. -/
def orbDup2 : GEntity := { orbC9 with tag := 12 }

/-- Game state at the last target position with the orb registered. -/
def sWinC9 : GMState :=
  { gameMode := GameMode.normal, scanOrbPositions := scanOrbPositionsInit,
    scanOrbIndex := 1,
    em := { entities := [(EntityId.scan_orb, orbC9)], emitted := [], warnings := [] } }

/-- Game state with targets remaining and the orb registered. -/
def sMidC9 : GMState :=
  { sWinC9 with scanOrbIndex := 0 }

end GeckoGame

namespace GeckoGame

/-! ### General lemmas about the live-set emit iteration -/

theorem drop_cons_get {α : Type} (l : List α) (i : Nat) (x : α) (tail : List α)
    (h : l.drop i = x :: tail) :
    ∃ hi : i < l.length, l.get ⟨i, hi⟩ = x ∧ l.drop (i + 1) = tail := by
  have hi : i < l.length := by
    by_contra hle
    rw [List.drop_eq_nil_of_le (Nat.le_of_not_lt hle)] at h
    exact List.noConfusion h
  rw [List.drop_eq_getElem_cons hi] at h
  injection h with h1 h2
  exact ⟨hi, by simpa [List.get_eq_getElem] using h1, h2⟩

theorem runActs_nil (env : Env) (fuel : Nat) (s : BusState) :
    runActs env fuel [] s = some (s, false) := by
  cases fuel <;> rfl

theorem emitLoop_end (env : Env) (E : GEvent) (p : Payload) (f i : Nat) (s : BusState)
    (h : (s.listeners E).length ≤ i) :
    emitLoop env (f + 1) E p i s = some (s, false) := by
  simp only [emitLoop]
  rw [dif_neg (by omega)]

theorem emitLoop_skip_none (env : Env) (E : GEvent) (p : Payload) (f i : Nat) (s : BusState)
    (tail : List (Option CbId)) (h : (s.listeners E).drop i = none :: tail) :
    emitLoop env (f + 1) E p i s = emitLoop env f E p (i + 1) s := by
  obtain ⟨hi, hget, -⟩ := drop_cons_get _ _ _ _ h
  simp only [emitLoop]
  rw [dif_pos hi, hget]

theorem emitLoop_throw_at (env : Env) (E : GEvent) (p : Payload) (t : CbId)
    (ht : env t = [Act.throwAct]) (f i : Nat) (s : BusState) (tail : List (Option CbId))
    (h : (s.listeners E).drop i = Option.some t :: tail) :
    emitLoop env (f + 2) E p i s = some ({ s with log := s.log ++ [(t, p)] }, true) := by
  obtain ⟨hi, hget, -⟩ := drop_cons_get _ _ _ _ h
  simp only [emitLoop]
  rw [dif_pos hi, hget]
  dsimp only
  rw [ht]
  rfl

theorem emitLoop_on_step (env : Env) (E : GEvent) (p : Payload) (a b : CbId)
    (ha : env a = [Act.onAct E b]) (f i : Nat) (s : BusState) (tail : List (Option CbId))
    (h : (s.listeners E).drop i = Option.some a :: tail) :
    emitLoop env (f + 2) E p i s
      = emitLoop env (f + 1) E p (i + 1) (busOn E b { s with log := s.log ++ [(a, p)] }) := by
  obtain ⟨hi, hget, -⟩ := drop_cons_get _ _ _ _ h
  simp only [emitLoop]
  rw [dif_pos hi, hget]
  dsimp only
  rw [ha]
  have hr : runActs env (f + 1) [Act.onAct E b] { s with log := s.log ++ [(a, p)] }
      = some (busOn E b { s with log := s.log ++ [(a, p)] }, false) := by
    cases f <;> rfl
  rw [hr]

theorem emitLoop_off_step (env : Env) (E : GEvent) (p : Payload) (a v : CbId)
    (ha : env a = [Act.offAct E v]) (f i : Nat) (s : BusState) (tail : List (Option CbId))
    (h : (s.listeners E).drop i = Option.some a :: tail) :
    emitLoop env (f + 2) E p i s
      = emitLoop env (f + 1) E p (i + 1) (busOff E v { s with log := s.log ++ [(a, p)] }) := by
  obtain ⟨hi, hget, -⟩ := drop_cons_get _ _ _ _ h
  simp only [emitLoop]
  rw [dif_pos hi, hget]
  dsimp only
  rw [ha]
  have hr : runActs env (f + 1) [Act.offAct E v] { s with log := s.log ++ [(a, p)] }
      = some (busOff E v { s with log := s.log ++ [(a, p)] }, false) := by
    cases f <;> rfl
  rw [hr]

theorem emitLoop_inert_seg (env : Env) (E : GEvent) (p : Payload) :
    ∀ (mid : List CbId) (f i : Nat) (s : BusState) (tail : List (Option CbId)),
      (∀ c ∈ mid, env c = []) →
      (s.listeners E).drop i = mid.map Option.some ++ tail →
      emitLoop env (mid.length + f) E p i s
        = emitLoop env f E p (i + mid.length)
            { s with log := s.log ++ mid.map (fun c => (c, p)) } := by
  intro mid
  induction mid with
  | nil => intro f i s tail _ _; simp
  | cons c mid ih =>
    intro f i s tail hin hdrop
    rw [List.map_cons, List.cons_append] at hdrop
    obtain ⟨hi, hget, hdrop1⟩ := drop_cons_get _ _ _ _ hdrop
    have hfuel : (c :: mid).length + f = (mid.length + f) + 1 := by
      simp [List.length_cons]; omega
    rw [hfuel]
    simp only [emitLoop]
    rw [dif_pos hi, hget]
    dsimp only
    rw [hin c (by simp)]
    have hrun : runActs env (mid.length + f) [] { s with log := s.log ++ [(c, p)] }
        = some ({ s with log := s.log ++ [(c, p)] }, false) := by
      cases h : mid.length + f <;> rfl
    rw [hrun]
    dsimp only
    have hih := ih f (i + 1) { s with log := s.log ++ [(c, p)] } tail
      (fun d hd => hin d (List.mem_cons_of_mem _ hd)) (by simpa using hdrop1)
    rw [hih]
    have hidx : i + 1 + mid.length = i + (c :: mid).length := by
      simp [List.length_cons]; omega
    rw [hidx]
    congr 1
    simp [List.append_assoc]

/-! ### Lemmas about the JS Set operations -/

theorem setAdd_of_not_mem (l : List (Option CbId)) (b : CbId)
    (h : Option.some b ∉ l) : setAdd l b = l ++ [Option.some b] := by
  rw [setAdd, if_neg]
  exact h

theorem busOn_listeners_self (E : GEvent) (b : CbId) (s : BusState) :
    (busOn E b s).listeners E = setAdd (s.listeners E) b := by
  simp [busOn]

theorem setDelete_append (l1 l2 : List (Option CbId)) (v : CbId) :
    setDelete (l1 ++ l2) v = setDelete l1 v ++ setDelete l2 v := by
  simp [setDelete]

theorem setDelete_cons (x : Option CbId) (l : List (Option CbId)) (v : CbId) :
    setDelete (x :: l) v = (if x = Option.some v then none else x) :: setDelete l v := rfl

theorem setDelete_map_some_of_not_mem (xs : List CbId) (v : CbId) (h : v ∉ xs) :
    setDelete (xs.map Option.some) v = xs.map Option.some := by
  induction xs with
  | nil => rfl
  | cons x xs ih =>
    rw [List.map_cons, setDelete_cons, if_neg, ih (fun hm => h (List.mem_cons_of_mem _ hm))]
    intro hx
    exact h (by simp at hx; simp [hx])

theorem busOff_listeners_self (E : GEvent) (v : CbId) (s : BusState) :
    (busOff E v s).listeners E = setDelete (s.listeners E) v := by
  simp [busOff]

theorem wCount_append (w : CbId) (l1 l2 : List (CbId × Payload)) :
    wCount w (l1 ++ l2) = wCount w l1 + wCount w l2 := by
  simp [wCount, List.filter_append]

theorem wCount_single (w c : CbId) (p : Payload) :
    wCount w [(c, p)] = if c = w then 1 else 0 := by
  by_cases h : c = w <;> simp [wCount, h]

theorem mem_setAdd_elim (l : List (Option CbId)) (c : CbId) (x : Option CbId)
    (h : x ∈ setAdd l c) : x ∈ l ∨ x = Option.some c := by
  rw [setAdd] at h
  split at h
  · exact Or.inl h
  · rcases List.mem_append.mp h with h1 | h1
    · exact Or.inl h1
    · simp at h1; exact Or.inr (by simp [h1])

theorem not_mem_setDelete_self (l : List (Option CbId)) (v : CbId) :
    Option.some v ∉ setDelete l v := by
  intro h
  rw [setDelete] at h
  obtain ⟨y, _, hy⟩ := List.mem_map.mp h
  by_cases hyv : y = Option.some v <;> simp [hyv] at hy

theorem mem_of_mem_setDelete (l : List (Option CbId)) (c w : CbId)
    (h : Option.some w ∈ setDelete l c) : Option.some w ∈ l := by
  rw [setDelete] at h
  obtain ⟨y, hyl, hy⟩ := List.mem_map.mp h
  by_cases hyv : y = Option.some c
  · simp [hyv] at hy
  · rw [if_neg hyv] at hy; rwa [hy] at hyl

theorem count_setAdd_ne (l : List (Option CbId)) (c w : CbId) (h : c ≠ w) :
    (setAdd l c).count (Option.some w) = l.count (Option.some w) := by
  rw [setAdd]
  split
  · rfl
  · rw [List.count_append]
    simp [List.count_singleton]
    exact h

theorem count_setDelete_le (l : List (Option CbId)) (c w : CbId) :
    (setDelete l c).count (Option.some w) ≤ l.count (Option.some w) := by
  induction l with
  | nil => simp [setDelete]
  | cons x l ih =>
    by_cases hx : x = Option.some c
    · rw [setDelete_cons, if_pos hx, List.count_cons, List.count_cons]
      have h1 : ((none : Option CbId) == Option.some w) = false := by simp
      simp only [h1, if_false, Nat.add_zero]
      exact le_trans ih (Nat.le_add_right _ _)
    · rw [setDelete_cons, if_neg hx, List.count_cons, List.count_cons]
      exact Nat.add_le_add_right ih _

theorem busOn_listeners (e : GEvent) (c : CbId) (s : BusState) (x : GEvent) :
    (busOn e c s).listeners x
      = if x = e then setAdd (s.listeners x) c else s.listeners x := rfl

theorem busOff_listeners (e : GEvent) (c : CbId) (s : BusState) (x : GEvent) :
    (busOff e c s).listeners x
      = if x = e then setDelete (s.listeners x) c else s.listeners x := rfl

end GeckoGame

namespace GeckoGame

/-! ### Preservation of the once-registration invariant -/

theorem onceInv_busOn (w : CbId) (E e : GEvent) (c : CbId) (s : BusState) (hc : c ≠ w)
    (hQ : onceInv w E s) : onceInv w E (busOn e c s) := by
  rcases hQ with ⟨h0, hoth, hcnt⟩ | ⟨h1, hfree⟩
  · left
    refine ⟨h0, ?_, ?_⟩
    · intro e2 he2 hmem
      rw [busOn_listeners] at hmem
      split at hmem
      · rcases mem_setAdd_elim _ _ _ hmem with h | h
        · exact hoth e2 he2 h
        · injection h with h; exact hc h.symm
      · exact hoth e2 he2 hmem
    · rw [busOn_listeners]
      split
      · rw [count_setAdd_ne _ _ _ hc]; exact hcnt
      · exact hcnt
  · right
    refine ⟨h1, fun e2 hmem => ?_⟩
    rw [busOn_listeners] at hmem
    split at hmem
    · rcases mem_setAdd_elim _ _ _ hmem with h | h
      · exact hfree e2 h
      · injection h with h; exact hc h.symm
    · exact hfree e2 hmem

theorem onceInv_busOff (w : CbId) (E e : GEvent) (c : CbId) (s : BusState)
    (hQ : onceInv w E s) : onceInv w E (busOff e c s) := by
  rcases hQ with ⟨h0, hoth, hcnt⟩ | ⟨h1, hfree⟩
  · left
    refine ⟨h0, ?_, ?_⟩
    · intro e2 he2 hmem
      rw [busOff_listeners] at hmem
      split at hmem
      · exact hoth e2 he2 (mem_of_mem_setDelete _ _ _ hmem)
      · exact hoth e2 he2 hmem
    · rw [busOff_listeners]
      split
      · exact le_trans (count_setDelete_le _ _ _) hcnt
      · exact hcnt
  · right
    refine ⟨h1, fun e2 hmem => ?_⟩
    rw [busOff_listeners] at hmem
    split at hmem
    · exact hfree e2 (mem_of_mem_setDelete _ _ _ hmem)
    · exact hfree e2 hmem

theorem onceInv_log_ne (w : CbId) (E : GEvent) (c : CbId) (p : Payload) (s : BusState)
    (hc : c ≠ w) (hQ : onceInv w E s) :
    onceInv w E { s with log := s.log ++ [(c, p)] } := by
  have hcount : wCount w (s.log ++ [(c, p)]) = wCount w s.log := by
    rw [wCount_append, wCount_single, if_neg hc, Nat.add_zero]
  rcases hQ with ⟨h0, hoth, hcnt⟩ | ⟨h1, hfree⟩
  · exact Or.inl ⟨by rw [hcount]; exact h0, hoth, hcnt⟩
  · exact Or.inr ⟨by rw [hcount]; exact h1, hfree⟩

theorem onceInv_preserved (env : Env) (w : CbId) (E : GEvent) (body : List Act)
    (henv : wNotAdded env w) (hw : env w = Act.offAct E w :: body) :
    ∀ fuel : Nat,
      (∀ as s r, (∀ e, Act.onAct e w ∉ as) → onceInv w E s →
          runActs env fuel as s = some r → onceInv w E r.1) ∧
      (∀ e p i s r, onceInv w E s →
          emitLoop env fuel e p i s = some r → onceInv w E r.1) := by
  intro fuel
  induction fuel using Nat.strong_induction_on with
  | _ fuel IH =>
  constructor
  · intro as s r hasOk hQ hrun
    cases as with
    | nil =>
      rw [runActs_nil] at hrun
      injection hrun with hr
      rw [← hr]
      exact hQ
    | cons a rest =>
      cases fuel with
      | zero => exact absurd hrun (by simp [runActs])
      | succ f =>
        have hf : f < f + 1 := Nat.lt_succ_self f
        cases a with
        | onAct e c =>
          have hcw : c ≠ w := by
            intro hcweq
            subst hcweq
            exact hasOk e (List.mem_cons_self _ _)
          have hrun2 : runActs env f rest (busOn e c s) = some r := hrun
          exact (IH f hf).1 rest _ r (fun e2 hm => hasOk e2 (List.mem_cons_of_mem _ hm))
            (onceInv_busOn w E e c s hcw hQ) hrun2
        | offAct e c =>
          have hrun2 : runActs env f rest (busOff e c s) = some r := hrun
          exact (IH f hf).1 rest _ r (fun e2 hm => hasOk e2 (List.mem_cons_of_mem _ hm))
            (onceInv_busOff w E e c s hQ) hrun2
        | throwAct =>
          have h2 : some (s, true) = some r := hrun
          injection h2 with hr
          rw [← hr]
          exact hQ
        | emitAct e p =>
          have hrun2 : (match emitLoop env f e p 0 s with
            | none => none
            | some (s1, true) => some (s1, true)
            | some (s1, false) => runActs env f rest s1) = some r := hrun
          cases hm : emitLoop env f e p 0 s with
          | none => rw [hm] at hrun2; exact absurd hrun2 (by simp)
          | some q =>
            obtain ⟨s1, b⟩ := q
            have hQ1 : onceInv w E s1 := (IH f hf).2 e p 0 s (s1, b) hQ hm
            cases b with
            | true =>
              rw [hm] at hrun2
              injection hrun2 with hr
              rw [← hr]
              exact hQ1
            | false =>
              rw [hm] at hrun2
              exact (IH f hf).1 rest s1 r
                (fun e2 hm2 => hasOk e2 (List.mem_cons_of_mem _ hm2)) hQ1 hrun2
  · intro e p i s r hQ hrun
    cases fuel with
    | zero => exact absurd hrun (by simp [emitLoop])
    | succ f =>
      have hf : f < f + 1 := Nat.lt_succ_self f
      simp only [emitLoop] at hrun
      split at hrun
      · split at hrun
        · exact (IH f hf).2 e p (i + 1) s r hQ hrun
        · next c hg =>
          by_cases hcw : c = w
          · have hwc : w = c := hcw.symm
            subst hwc
            have hmemw : Option.some w ∈ s.listeners e := by
              rw [← hg]
              exact List.get_mem _ _ _
            rcases hQ with ⟨h0, hoth, hcnt⟩ | ⟨h1, hfree⟩
            · have heE : e = E := by
                by_contra hne
                exact hoth e hne hmemw
              subst heE
              rw [hw] at hrun
              cases f with
              | zero => exact absurd hrun (by simp [runActs])
              | succ f2 =>
                have hrun3 : (match runActs env f2 body
                    (busOff e w { s with log := s.log ++ [(w, p)] }) with
                  | none => none
                  | some (s1, true) => some (s1, true)
                  | some (s1, false) => emitLoop env (f2 + 1) e p (i + 1) s1) = some r := hrun
                have hQ3 : onceInv w e (busOff e w { s with log := s.log ++ [(w, p)] }) := by
                  right
                  constructor
                  · show wCount w (s.log ++ [(w, p)]) = 1
                    rw [wCount_append, wCount_single, if_pos rfl, h0]
                  · intro e2
                    rw [busOff_listeners]
                    split
                    · exact not_mem_setDelete_self _ _
                    · next hne => exact hoth e2 hne
                have hbodyOk : ∀ e2, Act.onAct e2 w ∉ body := by
                  intro e2 hm2
                  have h3 := henv w e2
                  rw [hw] at h3
                  exact h3 (List.mem_cons_of_mem _ hm2)
                cases hm : runActs env f2 body
                    (busOff e w { s with log := s.log ++ [(w, p)] }) with
                | none => rw [hm] at hrun3; exact absurd hrun3 (by simp)
                | some q =>
                  obtain ⟨s4, b⟩ := q
                  have hQ4 : onceInv w e s4 :=
                    (IH f2 (by omega)).1 body _ (s4, b) hbodyOk hQ3 hm
                  cases b with
                  | true =>
                    rw [hm] at hrun3
                    injection hrun3 with hr
                    rw [← hr]
                    exact hQ4
                  | false =>
                    rw [hm] at hrun3
                    exact (IH (f2 + 1) (by omega)).2 e p (i + 1) s4 r hQ4 hrun3
            · exact absurd hmemw (hfree e)
          · have hQ1 : onceInv w E { s with log := s.log ++ [(c, p)] } :=
              onceInv_log_ne w E c p s hcw hQ
            cases hm : runActs env f (env c) { s with log := s.log ++ [(c, p)] } with
            | none => rw [hm] at hrun; exact absurd hrun (by simp)
            | some q =>
              obtain ⟨s1, b⟩ := q
              have hQ2 : onceInv w E s1 :=
                (IH f hf).1 (env c) _ (s1, b) (fun e2 => henv c e2) hQ1 hm
              cases b with
              | true =>
                rw [hm] at hrun
                injection hrun with hr
                rw [← hr]
                exact hQ2
              | false =>
                rw [hm] at hrun
                exact (IH f hf).2 e p (i + 1) s1 r hQ2 hrun
      · injection hrun with hr
        rw [← hr]
        exact hQ

theorem emitSeq_onceInv (env : Env) (w : CbId) (E : GEvent) (body : List Act)
    (henv : wNotAdded env w) (hw : env w = Act.offAct E w :: body) (fuel : Nat) :
    ∀ emits s r, onceInv w E s → emitSeq env fuel emits s = some r → onceInv w E r := by
  intro emits
  induction emits with
  | nil =>
    intro s r hQ h
    simp only [emitSeq] at h
    injection h with h
    rw [← h]
    exact hQ
  | cons ep rest ih =>
    intro s r hQ h
    obtain ⟨e, p⟩ := ep
    simp only [emitSeq] at h
    cases hm : emit env fuel e p s with
    | none => rw [hm] at h; exact absurd h (by simp)
    | some q =>
      obtain ⟨s1, b⟩ := q
      rw [hm] at h
      exact ih s1 r
        ((onceInv_preserved env w E body henv hw fuel).2 e p 0 s (s1, b) hQ hm) h

/-! ### Helper theorems for the live-dispatch characterization -/

theorem emit_live_add (env : Env) (E : GEvent) (p : Payload) (a b : CbId)
    (pre post : List CbId) (s : BusState)
    (hpre : ∀ c ∈ pre, env c = []) (hpost : ∀ c ∈ post, env c = [])
    (ha : env a = [Act.onAct E b]) (hb : env b = [])
    (hlist : s.listeners E = pre.map Option.some ++ Option.some a :: post.map Option.some)
    (hnew : Option.some b ∉ s.listeners E) :
    (emit env (pre.length + post.length + 4) E p s).map (fun r => (r.1.log, r.2))
      = some (s.log ++ (pre ++ a :: (post ++ [b])).map (fun c => (c, p)), false) := by
  unfold emit
  rw [show pre.length + post.length + 4 = pre.length + (post.length + 2 + 2) from by omega]
  rw [emitLoop_inert_seg env E p pre (post.length + 2 + 2) 0 s
      (Option.some a :: post.map Option.some) hpre (by rw [List.drop_zero, hlist])]
  rw [Nat.zero_add]
  set s1 : BusState := { s with log := s.log ++ pre.map (fun c => (c, p)) } with hs1
  have hdropA : (s1.listeners E).drop pre.length
      = Option.some a :: post.map Option.some := by
    show (s.listeners E).drop pre.length = _
    rw [hlist]
    have h := List.drop_left (pre.map Option.some) (Option.some a :: post.map Option.some)
    rwa [List.length_map] at h
  rw [emitLoop_on_step env E p a b ha (post.length + 2) pre.length s1 _ hdropA]
  set s2 : BusState := busOn E b { s1 with log := s1.log ++ [(a, p)] } with hs2
  have hl2 : s2.listeners E
      = (pre.map Option.some ++ [Option.some a])
        ++ (post.map Option.some ++ [Option.some b]) := by
    rw [hs2, busOn_listeners_self]
    show setAdd (s.listeners E) b = _
    rw [setAdd_of_not_mem _ _ hnew, hlist]
    simp
  have hdropP : (s2.listeners E).drop (pre.length + 1)
      = post.map Option.some ++ [Option.some b] := by
    rw [hl2]
    have h := List.drop_left (pre.map Option.some ++ [Option.some a])
        (post.map Option.some ++ [Option.some b])
    simpa using h
  rw [show post.length + 2 + 1 = post.length + (1 + 2) from by omega]
  rw [emitLoop_inert_seg env E p post (1 + 2) (pre.length + 1) s2
      (Option.some b :: []) hpost (by rw [hdropP])]
  set s3 : BusState := { s2 with log := s2.log ++ post.map (fun c => (c, p)) } with hs3
  have hdropB : (s3.listeners E).drop (pre.length + 1 + post.length) = [Option.some b] := by
    show (s2.listeners E).drop (pre.length + 1 + post.length) = _
    rw [hl2, ← List.append_assoc]
    rw [show pre.length + 1 + post.length
        = ((pre.map Option.some ++ [Option.some a]) ++ post.map Option.some).length from by
      simp; omega]
    exact List.drop_left _ _
  rw [show (1 + 2 : Nat) = [b].length + 2 from rfl]
  rw [emitLoop_inert_seg env E p [b] 2 (pre.length + 1 + post.length) s3 []
      (by intro c hc; simp at hc; subst hc; exact hb) (by rw [hdropB]; rfl)]
  set s4 : BusState := { s3 with log := s3.log ++ [b].map (fun c => (c, p)) } with hs4
  have hend : (s4.listeners E).length ≤ pre.length + 1 + post.length + [b].length := by
    show (s2.listeners E).length ≤ _
    rw [hl2]
    simp; omega
  rw [show (2 : Nat) = 1 + 1 from rfl, emitLoop_end env E p 1 _ s4 hend]
  simp [hs4, hs3, hs2, hs1, busOn, List.append_assoc]

theorem emit_live_remove (env : Env) (E : GEvent) (p : Payload) (a v : CbId)
    (pre mid post : List CbId) (s : BusState)
    (hpre : ∀ c ∈ pre, env c = []) (hmid : ∀ c ∈ mid, env c = [])
    (hpost : ∀ c ∈ post, env c = [])
    (ha : env a = [Act.offAct E v])
    (hlist : s.listeners E = pre.map Option.some
        ++ Option.some a :: (mid.map Option.some ++ Option.some v :: post.map Option.some))
    (hvpre : v ∉ pre) (hvmid : v ∉ mid) (hvpost : v ∉ post) (hva : v ≠ a) :
    (emit env (pre.length + mid.length + post.length + 4) E p s).map (fun r => (r.1.log, r.2))
      = some (s.log ++ (pre ++ a :: (mid ++ post)).map (fun c => (c, p)), false) := by
  unfold emit
  rw [show pre.length + mid.length + post.length + 4
      = pre.length + (mid.length + post.length + 2 + 2) from by omega]
  rw [emitLoop_inert_seg env E p pre (mid.length + post.length + 2 + 2) 0 s
      (Option.some a :: (mid.map Option.some ++ Option.some v :: post.map Option.some))
      hpre (by rw [List.drop_zero, hlist])]
  rw [Nat.zero_add]
  set s1 : BusState := { s with log := s.log ++ pre.map (fun c => (c, p)) } with hs1
  have hdropA : (s1.listeners E).drop pre.length
      = Option.some a :: (mid.map Option.some ++ Option.some v :: post.map Option.some) := by
    show (s.listeners E).drop pre.length = _
    rw [hlist]
    have h := List.drop_left (pre.map Option.some)
        (Option.some a :: (mid.map Option.some ++ Option.some v :: post.map Option.some))
    rwa [List.length_map] at h
  rw [emitLoop_off_step env E p a v ha (mid.length + post.length + 2) pre.length s1 _ hdropA]
  set s2 : BusState := busOff E v { s1 with log := s1.log ++ [(a, p)] } with hs2
  have hl2 : s2.listeners E = (pre.map Option.some ++ [Option.some a])
      ++ (mid.map Option.some ++ none :: post.map Option.some) := by
    rw [hs2, busOff_listeners_self]
    show setDelete (s.listeners E) v = _
    rw [hlist, setDelete_append, setDelete_map_some_of_not_mem pre v hvpre,
        setDelete_cons, if_neg (by intro hx; injection hx with hx2; exact hva hx2.symm),
        setDelete_append, setDelete_map_some_of_not_mem mid v hvmid,
        setDelete_cons, if_pos rfl, setDelete_map_some_of_not_mem post v hvpost]
    simp
  have hdropM : (s2.listeners E).drop (pre.length + 1)
      = mid.map Option.some ++ none :: post.map Option.some := by
    rw [hl2]
    have h := List.drop_left (pre.map Option.some ++ [Option.some a])
        (mid.map Option.some ++ none :: post.map Option.some)
    simpa using h
  rw [show mid.length + post.length + 2 + 1 = mid.length + (post.length + 2 + 1) from by omega]
  rw [emitLoop_inert_seg env E p mid (post.length + 2 + 1) (pre.length + 1) s2
      (none :: post.map Option.some) hmid (by rw [hdropM])]
  set s3 : BusState := { s2 with log := s2.log ++ mid.map (fun c => (c, p)) } with hs3
  have hdropN : (s3.listeners E).drop (pre.length + 1 + mid.length)
      = none :: post.map Option.some := by
    show (s2.listeners E).drop (pre.length + 1 + mid.length) = _
    rw [hl2, ← List.append_assoc]
    rw [show pre.length + 1 + mid.length
        = ((pre.map Option.some ++ [Option.some a]) ++ mid.map Option.some).length from by
      simp; omega]
    exact List.drop_left _ _
  rw [show post.length + 2 + 1 = (post.length + 2) + 1 from rfl]
  rw [emitLoop_skip_none env E p (post.length + 2) (pre.length + 1 + mid.length) s3 _ hdropN]
  have hdropP : (s3.listeners E).drop (pre.length + 1 + mid.length + 1)
      = post.map Option.some ++ [] := by
    show (s2.listeners E).drop (pre.length + 1 + mid.length + 1) = _
    rw [hl2, ← List.append_assoc, List.append_nil]
    rw [show pre.length + 1 + mid.length + 1
        = (((pre.map Option.some ++ [Option.some a]) ++ mid.map Option.some) ++ [none]).length
        from by simp; omega]
    rw [show ((pre.map Option.some ++ [Option.some a]) ++ mid.map Option.some)
        ++ none :: post.map Option.some
        = (((pre.map Option.some ++ [Option.some a]) ++ mid.map Option.some) ++ [none])
            ++ post.map Option.some from by simp]
    exact List.drop_left _ _
  rw [show post.length + 2 = post.length + (1 + 1) from by omega]
  rw [emitLoop_inert_seg env E p post (1 + 1) (pre.length + 1 + mid.length + 1) s3 [] hpost hdropP]
  set s4 : BusState := { s3 with log := s3.log ++ post.map (fun c => (c, p)) } with hs4
  have hend : (s4.listeners E).length ≤ pre.length + 1 + mid.length + 1 + post.length := by
    show (s2.listeners E).length ≤ _
    rw [hl2]
    simp; omega
  rw [show (1 + 1 : Nat) = 1 + 1 from rfl, emitLoop_end env E p 1 _ s4 hend]
  simp [hs4, hs3, hs2, hs1, busOff, List.append_assoc]

end GeckoGame

namespace GeckoGame

/-! ### Lemmas about the entity-manager map operations -/

theorem mapSet_nil (i : EntityId) (en : GEntity) : mapSet [] i en = [(i, en)] := rfl

theorem mapSet_cons_self (k i : EntityId) (v en : GEntity) (m : List (EntityId × GEntity))
    (h : k = i) : mapSet ((k, v) :: m) i en = (k, en) :: m := by
  simp [mapSet, h]

theorem mapSet_cons_ne (k i : EntityId) (v en : GEntity) (m : List (EntityId × GEntity))
    (h : ¬ k = i) : mapSet ((k, v) :: m) i en = (k, v) :: mapSet m i en := by
  simp [mapSet, h]

theorem keyCount_nil (i : EntityId) : keyCount i [] = 0 := rfl

theorem keyCount_cons_self (i k : EntityId) (v : GEntity) (m : List (EntityId × GEntity))
    (h : k = i) : keyCount i ((k, v) :: m) = keyCount i m + 1 := by
  simp [keyCount, List.filter_cons, h]

theorem keyCount_cons_ne (i k : EntityId) (v : GEntity) (m : List (EntityId × GEntity))
    (h : ¬ k = i) : keyCount i ((k, v) :: m) = keyCount i m := by
  simp [keyCount, List.filter_cons, h]

theorem keyCount_mapSet_self (i : EntityId) (en : GEntity) :
    ∀ m : List (EntityId × GEntity), keyCount i m ≤ 1 → keyCount i (mapSet m i en) = 1 := by
  intro m
  induction m with
  | nil =>
    intro _
    rw [mapSet_nil, keyCount_cons_self i i en [] rfl, keyCount_nil]
  | cons kv rest ih =>
    obtain ⟨k, v⟩ := kv
    intro h
    by_cases hk : k = i
    · rw [mapSet_cons_self k i v en rest hk]
      rw [keyCount_cons_self i k v rest hk] at h
      rw [keyCount_cons_self i k en rest hk]
      omega
    · rw [mapSet_cons_ne k i v en rest hk]
      rw [keyCount_cons_ne i k v rest hk] at h
      rw [keyCount_cons_ne i k v (mapSet rest i en) hk]
      exact ih h

theorem mapGet_nil (i : EntityId) : mapGet [] i = none := rfl

theorem mapGet_cons_self (k i : EntityId) (v : GEntity) (m : List (EntityId × GEntity))
    (h : k = i) : mapGet ((k, v) :: m) i = some v := by
  simp [mapGet, List.find?_cons_of_pos, h]

theorem mapGet_cons_ne (k i : EntityId) (v : GEntity) (m : List (EntityId × GEntity))
    (h : ¬ k = i) : mapGet ((k, v) :: m) i = mapGet m i := by
  rw [mapGet, List.find?_cons_of_neg, ← mapGet]
  simp [h]

theorem mapGet_mapSet_self (i : EntityId) (en : GEntity) :
    ∀ m : List (EntityId × GEntity), mapGet (mapSet m i en) i = some en := by
  intro m
  induction m with
  | nil => rw [mapSet_nil, mapGet_cons_self i i en [] rfl]
  | cons kv rest ih =>
    obtain ⟨k, v⟩ := kv
    by_cases hk : k = i
    · rw [mapSet_cons_self k i v en rest hk, mapGet_cons_self k i en rest hk]
    · rw [mapSet_cons_ne k i v en rest hk, mapGet_cons_ne k i v (mapSet rest i en) hk]
      exact ih

theorem mapHas_mapSet_self (i : EntityId) (en : GEntity) :
    ∀ m : List (EntityId × GEntity), mapHas (mapSet m i en) i = true := by
  intro m
  induction m with
  | nil => simp [mapSet, mapHas]
  | cons kv rest ih =>
    obtain ⟨k, v⟩ := kv
    by_cases hk : k = i
    · rw [mapSet_cons_self k i v en rest hk]
      simp [mapHas, hk]
    · rw [mapSet_cons_ne k i v en rest hk]
      simp [mapHas, hk]
      simp [mapHas] at ih
      exact ih

theorem mapGet_mapDelete_self (m : List (EntityId × GEntity)) (i : EntityId) :
    mapGet (mapDelete m i) i = none := by
  have hfind : List.find? (fun q => decide (q.1 = i)) (mapDelete m i) = none := by
    rw [List.find?_eq_none]
    intro x hx
    rw [mapDelete] at hx
    have hp := List.of_mem_filter hx
    simp at hp ⊢
    exact hp
  rw [mapGet, hfind]
  rfl

end GeckoGame

namespace GeckoGame

/-! ### Claim C1 -/

/-- C1, counterexample.  The original claim says emit dispatches against a
snapshot of the listener set taken when emit begins: a callback registered
mid-emit must not be invoked in the same pass, and a callback unregistered
mid-emit (not yet run) must still be invoked.  The code iterates the live JS
Set instead.  First conjunct: callback 1 registers callback 2 during the
emit, and the log shows 2 invoked in the same pass with the same payload.
Second conjunct: callback 1 unregisters the not-yet-run callback 2, and the
log shows 2 never invoked. -/
theorem C1_counterexample :
    ((emit envC1add 10 GEvent.scan_orb_collision 0 sC1add).map (fun r => (r.1.log, r.2))
        = some ([(1, 0), (2, 0)], false))
  ∧ ((emit envC1rem 10 GEvent.scan_orb_collision 0 sC1rem).map (fun r => (r.1.log, r.2))
        = some ([(1, 0)], false)) :=
  ⟨rfl, rfl⟩

/-- C1 (amended): emit dispatches against the live listener set, not a
snapshot.  For every event E and payload, in any registration context of
inert callbacks: a callback registered for E from within a callback running
during that emit IS invoked in the same dispatch pass (appended at the end of
the pass), and a callback unregistered for E from within a callback running
during that emit, which had not yet run, is NOT invoked in that pass. -/
theorem C1_emit_dispatches_live (env : Env) (E : GEvent) (p : Payload) :
    (∀ (a b : CbId) (pre post : List CbId) (s : BusState),
        (∀ c ∈ pre, env c = []) → (∀ c ∈ post, env c = []) →
        env a = [Act.onAct E b] → env b = [] →
        s.listeners E = pre.map Option.some ++ Option.some a :: post.map Option.some →
        Option.some b ∉ s.listeners E →
        (emit env (pre.length + post.length + 4) E p s).map (fun r => (r.1.log, r.2))
          = some (s.log ++ (pre ++ a :: (post ++ [b])).map (fun c => (c, p)), false))
  ∧ (∀ (a v : CbId) (pre mid post : List CbId) (s : BusState),
        (∀ c ∈ pre, env c = []) → (∀ c ∈ mid, env c = []) → (∀ c ∈ post, env c = []) →
        env a = [Act.offAct E v] →
        s.listeners E = pre.map Option.some
          ++ Option.some a :: (mid.map Option.some ++ Option.some v :: post.map Option.some) →
        v ∉ pre → v ∉ mid → v ∉ post → v ≠ a →
        (emit env (pre.length + mid.length + post.length + 4) E p s).map
            (fun r => (r.1.log, r.2))
          = some (s.log ++ (pre ++ a :: (mid ++ post)).map (fun c => (c, p)), false)) :=
  ⟨fun a b pre post s h1 h2 h3 h4 h5 h6 =>
      emit_live_add env E p a b pre post s h1 h2 h3 h4 h5 h6,
    fun a v pre mid post s h1 h2 h3 h4 h5 h6 h7 h8 h9 =>
      emit_live_remove env E p a v pre mid post s h1 h2 h3 h4 h5 h6 h7 h8 h9⟩

/-- C1, witness: `C1_emit_dispatches_live` instantiated at the concrete
environments of `C1_counterexample`, payload 7 and empty contexts. -/
theorem C1_live_witness :
    ((emit envC1add 4 GEvent.scan_orb_collision 7 sC1add).map (fun r => (r.1.log, r.2))
        = some ([(1, 7), (2, 7)], false))
  ∧ ((emit envC1rem 4 GEvent.scan_orb_collision 7 sC1rem).map (fun r => (r.1.log, r.2))
        = some ([(1, 7)], false)) := by
  constructor
  · have h := (C1_emit_dispatches_live envC1add GEvent.scan_orb_collision 7).1
      1 2 [] [] sC1add (by simp) (by simp) (by simp [envC1add]) (by simp [envC1add])
      (by simp [sC1add]) (by simp [sC1add])
    simpa using h
  · have h := (C1_emit_dispatches_live envC1rem GEvent.scan_orb_collision 7).2
      1 2 [] [] [] sC1rem (by simp) (by simp) (by simp) (by simp [envC1rem])
      (by simp [sC1rem]) (by simp) (by simp) (by simp) (by simp)
    simpa using h

/-! ### Claim C2 -/

/-- C2, counterexample.  The original claim says that when a registered
callback throws, every later callback is still invoked and emit does not
propagate the exception.  Here callbacks 1 (throwing) and 2 are registered
for the event in that order; the run shows callback 2 is never invoked (the
log ends at callback 1) and the exception escapes emit (the `true` flag). -/
theorem C2_counterexample :
    (emit envC2 10 GEvent.scan_orb_collision 0 sC2).map (fun r => (r.1.log, r.2))
      = some ([(1, 0)], true) := rfl

/-- C2 (amended): a callback that throws during emit aborts the dispatch:
the callbacks before it run normally, the callbacks after it are never
invoked, and the exception propagates to the caller of emit (there is no
try/catch in EventBus.emit). -/
theorem C2_throwing_callback_aborts (env : Env) (E : GEvent) (p : Payload) (t : CbId)
    (pre post : List CbId) (s : BusState)
    (hpre : ∀ c ∈ pre, env c = []) (ht : env t = [Act.throwAct])
    (hlist : s.listeners E = pre.map Option.some
        ++ Option.some t :: post.map Option.some) :
    (emit env (pre.length + 2) E p s).map (fun r => (r.1.log, r.2))
      = some (s.log ++ (pre ++ [t]).map (fun c => (c, p)), true) := by
  unfold emit
  rw [emitLoop_inert_seg env E p pre 2 0 s
      (Option.some t :: post.map Option.some) hpre (by rw [List.drop_zero, hlist])]
  rw [Nat.zero_add]
  set s1 : BusState := { s with log := s.log ++ pre.map (fun c => (c, p)) } with hs1
  have hdropT : (s1.listeners E).drop pre.length
      = Option.some t :: post.map Option.some := by
    show (s.listeners E).drop pre.length = _
    rw [hlist]
    have h := List.drop_left (pre.map Option.some) (Option.some t :: post.map Option.some)
    rwa [List.length_map] at h
  rw [show (2 : Nat) = 0 + 2 from rfl]
  rw [emitLoop_throw_at env E p t ht 0 pre.length s1 _ hdropT]
  simp [hs1, List.append_assoc]

/-- C2, witness: `C2_throwing_callback_aborts` at the concrete bus where
inert callback 0 precedes throwing callback 1 and inert callback 2 follows. -/
theorem C2_throw_witness :
    (emit envC2 3 GEvent.scan_orb_collision 9 sC2w).map (fun r => (r.1.log, r.2))
      = some ([(0, 9), (1, 9)], true) := by
  have h := C2_throwing_callback_aborts envC2 GEvent.scan_orb_collision 9 1 [0] [2] sC2w
    (by intro c hc; simp at hc; simp [envC2, hc]) (by simp [envC2]) (by simp [sC2w])
  simpa using h

/-! ### Claim C7 -/

/-- C7: for every event E and callback registered through `once(E, c)`, the
wrapper `w` fires at most once across any sequence of subsequent top-level
emits, even when the wrapped body re-emits E from within its own invocation
(the body is arbitrary; `wNotAdded` records that no callback can re-register
the wrapper, which is a closure private to `once`).  Moreover the wrapper is
unregistered no later than its first invocation: if it is still registered
for E afterwards, it has never fired. -/
theorem C7_once_fires_at_most_once (env : Env) (w : CbId) (E : GEvent) (body : List Act)
    (fuel : Nat) (emits : List (GEvent × Payload)) (s0 : BusState) (r : BusState)
    (henv : wNotAdded env w) (hw : env w = onceWrapper E w body)
    (hfree : wFree w s0) (hlog : wCount w s0.log = 0)
    (hrun : emitSeq env fuel emits (busOn E w s0) = some r) :
    wCount w r.log ≤ 1 ∧ (Option.some w ∈ r.listeners E → wCount w r.log = 0) := by
  have hQ0 : onceInv w E (busOn E w s0) := by
    left
    refine ⟨hlog, ?_, ?_⟩
    · intro e2 hne hmem
      rw [busOn_listeners, if_neg hne] at hmem
      exact hfree e2 hmem
    · rw [busOn_listeners, if_pos rfl]
      rw [setAdd_of_not_mem _ _ (hfree E), List.count_append]
      have hz : (s0.listeners E).count (Option.some w) = 0 := by
        rw [List.count_eq_zero]
        exact hfree E
      rw [hz]
      simp
  have hQr := emitSeq_onceInv env w E body henv (by rw [hw]; rfl) fuel emits _ r hQ0 hrun
  rcases hQr with ⟨h0, _, _⟩ | ⟨h1, hfree2⟩
  · exact ⟨by omega, fun _ => h0⟩
  · exact ⟨by omega, fun hmem => absurd hmem (hfree2 E)⟩

/-- C7, witness: a once-wrapper (callback 0) for `game_win_event` whose body
re-emits the same event, run through two top-level emits; it fires at most
once. -/
theorem C7_once_witness : wCount 0 rC7.log ≤ 1 :=
  (C7_once_fires_at_most_once envC7 0 GEvent.game_win_event
    [Act.emitAct GEvent.game_win_event 5]
    8 [(GEvent.game_win_event, 3), (GEvent.game_win_event, 4)] busEmpty rC7
    (by
      intro c e
      by_cases hc : c = 0 <;> simp [envC7, hc, onceWrapper])
    (by simp [envC7, onceWrapper])
    (by intro e; simp [busEmpty])
    (by simp [wCount, busEmpty])
    rfl).1

end GeckoGame

namespace GeckoGame

/-! ### Claim C3 -/

/-- C3, code bug.  The claim (and the spec) say RenderingSystem.update
invokes the render-update capability of every entity holding a
RenderingComponent and then issues exactly one draw call.  The code instead
writes `for (const entity in this.cachedEntities)` -- a for..in loop over an
array, so the loop variable is the index string "0" -- and calls
updateRendering on that string, which throws a TypeError; and the body
contains no renderer.render call at all.  First conjunct: with one renderable
entity in the manager, update throws the TypeError without invoking any
entity's updateRendering and without drawing.  Second conjunct: with no
renderable entities the loop body never runs, and update still issues zero
draw calls. -/
theorem C3_update_renders_nothing :
    RenderingSystem.update mgrC3 renderInit
        = Except.error "TypeError: 0.updateRendering is not a function"
  ∧ RenderingSystem.update emptyMgr renderInit
        = Except.ok { cachedEntities := some [], renderedLog := [], drawCalls := 0 } :=
  ⟨rfl, rfl⟩

/-! ### Claim C4 -/

/-- The frame callback always leaves another frame queued: the first
statement of GameManager.update is an unconditional
`requestAnimationFrame(() => this.update())`, and the rest of its body never
cancels it. -/
theorem updateFrame_always_requeues (dt : ℚ) (now : Nat) (bodies : EntityId → Option Vec3)
    (mgr : EMState) (s : SessionState) :
    (GameManager.updateFrame dt now bodies mgr s).rafQueued = true := by
  simp only [GameManager.updateFrame]
  split <;> rfl

/-- C4, code bug.  The claim says that once GameManager.dispose() has been
called, no scheduler callback schedules a further invocation of itself.  The
code has no such mechanism: dispose neither cancels the queued animation
frame nor sets any flag that update reads, and update re-schedules itself
unconditionally as its first statement.  Hence, from any session state, the
frame callback that fires after dispose leaves a new frame queued. -/
theorem C4_reschedules_after_dispose (dt : ℚ) (now : Nat) (bodies : EntityId → Option Vec3)
    (mgr : EMState) (s : SessionState) :
    (fireFrame dt now bodies mgr (GameManager.dispose s)).rafQueued = true
  ∧ (GameManager.dispose s).disposeCalled = true :=
  ⟨updateFrame_always_requeues dt now bodies mgr _, rfl⟩

/-! ### Claim C6 -/

/-- C6: for every dt (and frame clock and manager contents), calling
PhysicsSystem.update while the system has not reached the initialized state
returns the state unchanged: no world step, no entity physics-update
invocation, no mutation, and no error (the model is a total function and the
guarded branch returns immediately). -/
theorem C6_update_noop_before_ready (dt : ℚ) (now : Nat) (bodies : EntityId → Option Vec3)
    (mgr : EMState) (s : PhysSystemState) (h : s.isInitialized = false) :
    PhysicsSystem.update dt now bodies mgr s = s := by
  simp [PhysicsSystem.update, h]

/-- C6, witness: the fresh uninitialized physics system is untouched by an
update call. -/
theorem C6_noop_witness :
    PhysicsSystem.update 1 0 (bodiesAt vOrb vNear) emptyMgr physUninit = physUninit :=
  C6_update_noop_before_ready 1 0 (bodiesAt vOrb vNear) emptyMgr physUninit rfl

/-! ### Claim C10 -/

/-- C10: the Coordinator's change-mode handler enforces no transition graph.
For every state (hence every current mode m1, including m1 = m2) and every
commanded mode m2, the handler unconditionally overwrites the mode with m2
and emits `game_mode_updated` with (prev = m1, curr = m2) before returning;
no command is rejected based on the current mode, and a self-transition still
emits the update event (the theorem quantifies over all states with no side
condition). -/
theorem C10_mode_change_unconditional (m2 : GameMode) (s : GMState) :
    (handleChangeGameModeCommand m2 s).gameMode = m2
  ∧ (handleChangeGameModeCommand m2 s).em.emitted
      = s.em.emitted ++ [BusEvent.game_mode_updated s.gameMode m2] :=
  ⟨rfl, rfl⟩

end GeckoGame

namespace GeckoGame

/-! ### Claim C5 -/

/-- C5, counterexample.  The original claim says that when the distance rises
back above the threshold the active flag is cleared, and that a later drop
below the threshold with the 1-second cooldown elapsed emits exactly one more
collision event.  The cooldown check runs before everything else, so an
above-threshold frame inside the cooldown window does not clear the flag, and
a below-threshold frame after the cooldown then finds the flag still set and
emits nothing.  Trace: trigger at t=100 (distance 2.9), distance 4 at t=500
(inside the cooldown window ending 1100), distance 2.9 again at t=1200 (after
cooldown): only the first frame emits, the flag remains set throughout.
Second conjunct: the t=500 frame in isolation leaves the active flag set. -/
theorem C5_counterexample :
    runChecks [(100, vOrb, vNear), (500, vOrb, vFar), (1200, vOrb, vNear)]
        { active := false, cooldownUntil := 0 }
      = ({ active := true, cooldownUntil := 1100 }, 1)
  ∧ (checkScanOrbCollisions 500 (bodiesAt vOrb vFar)
        { active := true, cooldownUntil := 1100 }).1.active = true := by
  have h1 : distSq vOrb vNear < 9 := by norm_num [distSq, vOrb, vNear]
  have h2 : ¬ distSq vOrb vFar < 9 := by norm_num [distSq, vOrb, vFar]
  constructor
  · simp [runChecks, checkScanOrbCollisions, bodiesAt, COLLISION_COOLDOWN_MS, h1, h2]
  · simp [checkScanOrbCollisions, bodiesAt, COLLISION_COOLDOWN_MS]

/-- C5 (amended): behaviour of the scan-orb proximity trigger, with the
cooldown gate made explicit.  On a frame at or after cooldown expiry: a drop
below the 3.0 threshold (distance squared below 9) with the trigger inactive
emits exactly one collision event and sets the active flag with a 1-second
cooldown; while the distance stays below the threshold no further event is
emitted (at any time); an above-threshold frame clears the active flag.  On a
frame still inside the cooldown window, the check returns immediately: no
event is emitted and the state (including the active flag) is left unchanged,
so the flag is cleared only by an above-threshold frame at or after cooldown
expiry, and only then can a later below-threshold frame re-trigger. -/
theorem C5_trigger_cooldown_gated (now : Nat) (bodies : EntityId → Option Vec3)
    (cs : CollisionState) (orbPos playerPos : Vec3)
    (horb : bodies EntityId.scan_orb = some orbPos)
    (hpl : bodies EntityId.player = some playerPos) :
    (cs.cooldownUntil ≤ now → distSq orbPos playerPos < 9 → cs.active = false →
        checkScanOrbCollisions now bodies cs
          = ({ active := true, cooldownUntil := now + COLLISION_COOLDOWN_MS }, true))
  ∧ (cs.active = true → distSq orbPos playerPos < 9 →
        (checkScanOrbCollisions now bodies cs).2 = false)
  ∧ (cs.cooldownUntil ≤ now → ¬ distSq orbPos playerPos < 9 → cs.active = true →
        checkScanOrbCollisions now bodies cs = ({ cs with active := false }, false))
  ∧ (now < cs.cooldownUntil → checkScanOrbCollisions now bodies cs = (cs, false)) := by
  refine ⟨?_, ?_, ?_, ?_⟩
  · intro hcd hlt hact
    unfold checkScanOrbCollisions
    rw [if_neg (by omega), horb, hpl]
    dsimp only
    rw [if_pos ⟨hlt, hact⟩]
  · intro hact hlt
    by_cases hcd : now < cs.cooldownUntil
    · unfold checkScanOrbCollisions
      rw [if_pos hcd]
    · unfold checkScanOrbCollisions
      rw [if_neg hcd, horb, hpl]
      dsimp only
      rw [if_neg (by rintro ⟨-, hf⟩; rw [hact] at hf; cases hf)]
      rw [if_neg (by rintro ⟨hnl, -⟩; exact hnl hlt)]
  · intro hcd hnlt hact
    unfold checkScanOrbCollisions
    rw [if_neg (by omega), horb, hpl]
    dsimp only
    rw [if_neg (by rintro ⟨hl, -⟩; exact hnlt hl)]
    rw [if_pos ⟨hnlt, hact⟩]
  · intro hcd
    unfold checkScanOrbCollisions
    rw [if_pos hcd]

/-- C5, witness: the first trigger at distance 2.9 from an idle state, and
the clearing of the flag by an above-threshold frame at cooldown expiry. -/
theorem C5_trigger_witness :
    checkScanOrbCollisions 2000 (bodiesAt vOrb vNear) { active := false, cooldownUntil := 0 }
        = ({ active := true, cooldownUntil := 3000 }, true)
  ∧ checkScanOrbCollisions 2000 (bodiesAt vOrb vFar) { active := true, cooldownUntil := 0 }
        = ({ active := false, cooldownUntil := 0 }, false) := by
  constructor
  · have h := (C5_trigger_cooldown_gated 2000 (bodiesAt vOrb vNear)
      { active := false, cooldownUntil := 0 } vOrb vNear rfl rfl).1
      (Nat.zero_le 2000) (by norm_num [distSq, vOrb, vNear]) rfl
    simpa [COLLISION_COOLDOWN_MS] using h
  · have h := (C5_trigger_cooldown_gated 2000 (bodiesAt vOrb vFar)
      { active := true, cooldownUntil := 0 } vOrb vFar rfl rfl).2.2.1
      (Nat.zero_le 2000) (by norm_num [distSq, vOrb, vFar]) rfl
    simpa using h

end GeckoGame

namespace GeckoGame

/-! ### Claim C8 -/

/-- C8: for every identity I, adding two entities with identity I (to any
manager state whose collection is well formed, holding I at most once) leaves
exactly one entry with identity I in the collection -- the second entity
replaces the first, retrievable by getEntity -- the duplicate registration
produces the replacement warning, and each addEntity call emits an
`entity_added_to_manager` event carrying the entity it was given. -/
theorem C8_duplicate_identity_replaces (i : EntityId) (e1 e2 : GEntity) (s : EMState)
    (h1 : e1.id = i) (h2 : e2.id = i) (hwf : keyCount i s.entities ≤ 1) :
    keyCount i (addEntity e2 (addEntity e1 s)).entities = 1
  ∧ getEntity i (addEntity e2 (addEntity e1 s)) = some e2
  ∧ (addEntity e2 (addEntity e1 s)).warnings
      = (addEntity e1 s).warnings ++ ["Entity with ID already exists. Replacing."]
  ∧ (addEntity e2 (addEntity e1 s)).emitted
      = s.emitted ++ [BusEvent.entity_added_to_manager e1,
                      BusEvent.entity_added_to_manager e2] := by
  have hc1 : keyCount i (addEntity e1 s).entities = 1 := by
    show keyCount i (mapSet s.entities e1.id e1) = 1
    rw [h1]
    exact keyCount_mapSet_self i e1 s.entities hwf
  refine ⟨?_, ?_, ?_, ?_⟩
  · show keyCount i (mapSet (addEntity e1 s).entities e2.id e2) = 1
    rw [h2]
    exact keyCount_mapSet_self i e2 _ (le_of_eq hc1)
  · show mapGet (mapSet (addEntity e1 s).entities e2.id e2) i = some e2
    rw [h2]
    exact mapGet_mapSet_self i e2 _
  · show (if mapHas (addEntity e1 s).entities e2.id then
        (addEntity e1 s).warnings ++ ["Entity with ID already exists. Replacing."]
      else (addEntity e1 s).warnings) = _
    rw [if_pos]
    show mapHas (mapSet s.entities e1.id e1) e2.id = true
    rw [h1, h2]
    exact mapHas_mapSet_self i e1 s.entities
  · show ((s.emitted ++ [BusEvent.entity_added_to_manager e1])
        ++ [BusEvent.entity_added_to_manager e2]) = _
    simp

/-- C8, witness: two scan-orb entities with distinct tags added to the empty
manager; the second replaces the first, the warning fires, and both
registration events appear. -/
theorem C8_duplicate_witness :
    keyCount EntityId.scan_orb (addEntity orbDup2 (addEntity orbDup1 emptyMgr)).entities = 1
  ∧ getEntity EntityId.scan_orb (addEntity orbDup2 (addEntity orbDup1 emptyMgr))
      = some orbDup2
  ∧ (addEntity orbDup2 (addEntity orbDup1 emptyMgr)).warnings
      = (addEntity orbDup1 emptyMgr).warnings ++ ["Entity with ID already exists. Replacing."]
  ∧ (addEntity orbDup2 (addEntity orbDup1 emptyMgr)).emitted
      = emptyMgr.emitted ++ [BusEvent.entity_added_to_manager orbDup1,
                             BusEvent.entity_added_to_manager orbDup2] :=
  C8_duplicate_identity_replaces EntityId.scan_orb orbDup1 orbDup2 emptyMgr
    rfl rfl (by simp [emptyMgr, keyCount])

/-! ### Claim C9 -/

/-- C9: behaviour of the objective trigger handler.  When the trigger fires
while the current index is at the last target position (index + 1 equals the
number of positions), the handler removes the scan orb from the entity
manager -- the dispose-request and `entity_disposed` events fire, a
subsequent getEntity for the identity returns absent -- and emits exactly one
`game_win_event`, with no `scan_orb_position_changed` event (the emitted list
is pinned exactly).  When more targets remain, the orb entity is relocated to
the next position, exactly one `scan_orb_position_changed` event is emitted —
the repository's name for the target-relocated event — and no `game_win_event`
is emitted. -/
theorem C9_objective_completion (s : GMState) (orb : GEntity)
    (horb : mapGet s.em.entities EntityId.scan_orb = some orb)
    (hid : orb.id = EntityId.scan_orb) (hdisp : orb.hasDispose = true) :
    (s.scanOrbIndex + 1 = s.scanOrbPositions.length →
        handleScanOrbCollision s = Except.ok
          { gameMode := s.gameMode, scanOrbPositions := s.scanOrbPositions,
            scanOrbIndex := s.scanOrbIndex + 1,
            em := { entities := mapDelete s.em.entities EntityId.scan_orb,
                    emitted := s.em.emitted
                      ++ [BusEvent.entity_dispose_physics_request EntityId.scan_orb,
                          BusEvent.entity_dispose_rendering_request EntityId.scan_orb,
                          BusEvent.entity_disposed EntityId.scan_orb,
                          BusEvent.game_win_event],
                    warnings := s.em.warnings } }
      ∧ mapGet (mapDelete s.em.entities EntityId.scan_orb) EntityId.scan_orb = none)
  ∧ (s.scanOrbIndex + 1 < s.scanOrbPositions.length →
        handleScanOrbCollision s = Except.ok
          { gameMode := s.gameMode, scanOrbPositions := s.scanOrbPositions,
            scanOrbIndex := s.scanOrbIndex + 1,
            em := { entities := mapSet s.em.entities EntityId.scan_orb
                      { orb with pos := (s.scanOrbPositions.get? (s.scanOrbIndex + 1)).getD (Vec3.mk 0 0 0) },
                    emitted := s.em.emitted ++ [BusEvent.scan_orb_position_changed],
                    warnings := s.em.warnings } }
      ∧ mapGet (mapSet s.em.entities EntityId.scan_orb
            { orb with pos := (s.scanOrbPositions.get? (s.scanOrbIndex + 1)).getD (Vec3.mk 0 0 0) }) EntityId.scan_orb
          = some { orb with pos := (s.scanOrbPositions.get? (s.scanOrbIndex + 1)).getD (Vec3.mk 0 0 0) }) := by
  constructor
  · intro hlen
    constructor
    · unfold handleScanOrbCollision removeEntity disposeEntity
      rw [if_pos (by omega), horb]
      simp [hid, hdisp, entityDisposeEmits, List.append_assoc]
    · exact mapGet_mapDelete_self _ _
  · intro hlt
    constructor
    · unfold handleScanOrbCollision
      rw [if_neg (by omega), horb]
    · exact mapGet_mapSet_self _ _ _

/-- C9, witness: with the two-checkpoint position list, the handler at index
1 (the last position) removes the orb and emits the win event; the handler at
index 0 relocates the orb to the second checkpoint and emits the relocation
event. -/
theorem C9_objective_witness :
    (handleScanOrbCollision sWinC9 = Except.ok
        { gameMode := sWinC9.gameMode, scanOrbPositions := sWinC9.scanOrbPositions,
          scanOrbIndex := 2,
          em := { entities := mapDelete sWinC9.em.entities EntityId.scan_orb,
                  emitted := sWinC9.em.emitted
                    ++ [BusEvent.entity_dispose_physics_request EntityId.scan_orb,
                        BusEvent.entity_dispose_rendering_request EntityId.scan_orb,
                        BusEvent.entity_disposed EntityId.scan_orb,
                        BusEvent.game_win_event],
                  warnings := sWinC9.em.warnings } }
      ∧ mapGet (mapDelete sWinC9.em.entities EntityId.scan_orb) EntityId.scan_orb = none)
  ∧ (handleScanOrbCollision sMidC9 = Except.ok
        { gameMode := sMidC9.gameMode, scanOrbPositions := sMidC9.scanOrbPositions,
          scanOrbIndex := 1,
          em := { entities := mapSet sMidC9.em.entities EntityId.scan_orb
                    { orbC9 with pos := (sMidC9.scanOrbPositions.get? 1).getD (Vec3.mk 0 0 0) },
                  emitted := sMidC9.em.emitted ++ [BusEvent.scan_orb_position_changed],
                  warnings := sMidC9.em.warnings } }
      ∧ mapGet (mapSet sMidC9.em.entities EntityId.scan_orb
            { orbC9 with pos := (sMidC9.scanOrbPositions.get? 1).getD (Vec3.mk 0 0 0) }) EntityId.scan_orb
          = some { orbC9 with pos := (sMidC9.scanOrbPositions.get? 1).getD (Vec3.mk 0 0 0) }) :=
  ⟨(C9_objective_completion sWinC9 orbC9 rfl rfl rfl).1 rfl,
    (C9_objective_completion sMidC9 orbC9 rfl rfl rfl).2 (by simp [sMidC9, sWinC9, scanOrbPositionsInit])⟩

end GeckoGame
